import Mathlib

/-!
Verification of the RFID reader protocol engine (`src/rfid/reader.py`,
`src/rfid/transport.py`) against its natural-language specification.

The engine is embedded shallowly: byte strings are `List Nat` (each element a
byte value), transport reads are supplied as explicit lists of read results,
and each Python loop becomes a structurally recursive Lean function over the
list of read results it consumes.
-/

namespace RFID

/-- A byte string (Python `bytes`): a list of byte values. -/
abbrev Bytes := List Nat

/-- Modelled from the spec: the fixed frame sentinel byte `HEADER` is defined
in `rfid/response.py`, which is not under `src/`.  The spec fixes it only as
"a fixed sentinel byte"; the engine compares bytes against it for equality, so
any fixed byte value is faithful.  We use `0xCF`. -/
def HEADER : Nat := 0xCF

/-- Modelled from the spec: numeric opcode values live in `rfid/command.py`,
which is not under `src/`.  The engine only compares opcodes for equality, so
the values below are placeholders fixed up to distinctness. -/
def MODULE_INIT : Nat := 0x0050

def REBOOT : Nat := 0x0052

def SET_POWER : Nat := 0x0053

def GET_DEVICE_INFO : Nat := 0x0070

def GET_ALL_PARAM : Nat := 0x0072

def SET_GET_NETWORK : Nat := 0x0079

def READ_ISO_TAG : Nat := 0x0080

def WRITE_ISO_TAG : Nat := 0x0081

def LOCK_ISO_TAG : Nat := 0x0082

def KILL_ISO_TAG : Nat := 0x0083

def SELECT_MASK : Nat := 0x0098

def INVENTORY_ISO_CONTINUE : Nat := 0x0001

def INVENTORY_STOP : Nat := 0x0002

def INVENTORY_RANGE : Nat := 0x00AA

/-- Modelled from the spec: the `CommandRequest` enumeration of
`rfid/command.py` is not under `src/`; the spec calls it "a closed enumeration
of opcodes".  Constructing `CommandRequest(x)` for `x` outside this set raises
`ValueError` in Python. -/
def knownOpcodes : List Nat :=
  [ MODULE_INIT, REBOOT, SET_POWER, GET_DEVICE_INFO, GET_ALL_PARAM,
   SET_GET_NETWORK, READ_ISO_TAG, WRITE_ISO_TAG, LOCK_ISO_TAG, KILL_ISO_TAG,
   SELECT_MASK, INVENTORY_ISO_CONTINUE, INVENTORY_STOP, INVENTORY_RANGE]

/-- Modelled from the spec: status values live in `rfid/status.py`, not under
`src/`.  The two that drive engine control flow are `SUCCESS` and
`NO_COUNT_LABEL`; only their distinctness matters to the engine. -/
def SUCCESS : Nat := 0x00

/-- Modelled from the spec: the stream-terminator status (see `SUCCESS`). -/
def NO_COUNT_LABEL : Nat := 0x01

/-- Modelled from the spec: the closed `InventoryStatus` enumeration of
`rfid/status.py` (not under `src/`); `InventoryStatus(x)` for `x` outside the
set raises `ValueError`. -/
def knownInvStatuses : List Nat := [SUCCESS, NO_COUNT_LABEL]

/-- Python `int.from_bytes(l, "big")`: fold the byte list big-endian; an empty
list gives `0`, exactly as in Python. -/
def fromBytesBE (l : Bytes) : Nat :=
  l.foldl (fun acc b => acc * 256 + b) 0

/-- The opcode field of a raw frame: `int.from_bytes(raw[2:4], "big")` as in
`Reader.__receive_response`. -/
def rawOpcode (raw : Bytes) : Nat :=
  fromBytesBE ((raw.drop 2).take 2)

/-!
## USB one-shot receive (`Reader.__receive_response`, USB branch)

```
raw_resp = self.transport.read_bytes()
if loop_usb:
    all_len = 4 + raw_resp[4] + 2
    while len(raw_resp) < all_len:
        raw_resp += self.transport.read_bytes()
```

`packets` is the sequence of bulk packets the transport delivers, one per
`read_bytes()` call; a run that needs a packet the transport never delivers is
`none` (the Python call would block or raise).
-/

/-- The `while len(raw_resp) < all_len` concatenation loop, recursing on the
remaining bulk packets. -/
def usbFill (allLen : Nat) (buf : Bytes) : List Bytes → Option Bytes
  | [] => if allLen ≤ buf.length then some buf else none
  | p :: ps =>
    if allLen ≤ buf.length then some buf else usbFill allLen (buf ++ p) ps

/-- The USB branch of `Reader.__receive_response.__receive`: read one bulk
packet; when `loopUsb` is set, compute `all_len = 4 + raw_resp[4] + 2` and
keep concatenating packets while the buffer is shorter.  A first packet
shorter than 5 bytes makes `raw_resp[4]` raise `IndexError` (`none`). -/
def usbReceive (loopUsb : Bool) : List Bytes → Option Bytes
  | [] => none
  | p :: ps =>
    if loopUsb then
      if h : 4 < p.length then usbFill (4 + p.get ⟨4, h⟩ + 2) p ps else none
    else some p

/-!
## One-shot retry loop (`Reader.__receive_response`, outer `for i in range(20)`)

```
raw_response = None
for i in range(20):
    raw_response = __receive()
    if raw_response is None:
        return
    if len(raw_response) > 0 and raw_response[0] != HEADER:
        self.transport.clear_buffer()
    try:
        command_response = CommandRequest(int.from_bytes(raw_response[2:4], "big"))
    except ValueError:
        pass  # command_response stays None
    if command_response == command_request:
        break
return raw_response
```

The results of successive `__receive()` calls are supplied as a list of
`Option Bytes` (`none` = `__receive` returned `None`); an exhausted list
stands for a transport that never answers again and behaves like `None`.
`command_response == command_request` holds exactly when the two-byte opcode
value equals the expected opcode's value: an unknown opcode yields
`command_response = None`, which never equals the (valid) expected member,
and a known-but-different opcode is a different member.

The result triple is `(returned value, clear_buffer count, receives consumed)`.
-/

/-- The retry loop with explicit remaining-attempt fuel (`20` at entry). -/
def recvLoop (expected : Nat) : Nat → List (Option Bytes) → Option Bytes × Nat × Nat
  | 0, _ => (none, 0, 0)
  | _ + 1, [] => (none, 0, 0)
  | fuel + 1, r :: rest =>
    match r with
    | none => (none, 0, 1)
    | some raw =>
      let fl := if 0 < raw.length ∧ raw.headD 0 ≠ HEADER then 1 else 0
      if rawOpcode raw = expected then (some raw, fl, 1)
      else if fuel = 0 then (some raw, fl, 1)
      else
        let rec1 := recvLoop expected fuel rest
        (rec1.1, fl + rec1.2.1, 1 + rec1.2.2)

/-- `Reader.__receive_response`'s outer loop: 20 attempts. -/
def receiveResponse (expected : Nat) (input : List (Option Bytes)) :
    Option Bytes × Nat × Nat :=
  recvLoop expected 20 input

/-!
## Streaming loops of `read_memory`, `write_memory`, `lock_memory`, `kill_tag`

All four share one shape (`Reader.read_memory` lines 317-330 and the three
copies below it); they differ in one point only: on a `None` receive,
`read_memory` does `yield raw_response; continue` while `write_memory`,
`lock_memory` and `kill_tag` do a bare `continue`.

```
while self.is_inventory:
    raw_response = self.__receive_response(cmd_request)
    if raw_response is None:
        [yield raw_response]   # read_memory only
        continue
    response = Response...(raw_response)
    yield response
    if response.status == Status.NO_COUNT_LABEL:
        break
self.is_inventory = False
```

The input is the list of successive `__receive_response` results.  A yielded
item is `Option Bytes`: `none` is the Python `None` sentinel, `some raw` the
typed response built from `raw`.  The result triple is
`(yielded items, receives consumed, is_inventory afterwards)`; an exhausted
input with the loop still running leaves the flag `true` (the Python loop
would still be blocked in a read).
-/

/-- Whether the loop yields the Python `None` sentinel on a `None` receive
(`read_memory`) or silently continues (`write_memory`, `lock_memory`,
`kill_tag`). -/
inductive NonePolicy
  | yieldSentinel
  | skip
  deriving DecidableEq

/-- Modelled from the spec: the typed response classes live in
`rfid/response.py`, not under `src/`.  Per spec section 4.2 each typed
response parser consumes a frame body beginning with a 1-byte `Status`; the
body starts after the 5-byte fixed prefix, so the status byte is the frame
byte at index 5. -/
def responseStatus (raw : Bytes) : Nat := raw.getD 5 0

/-- Loop body shared by the four memory-streaming operations, recursing on
the list of receive results. -/
def streamGo (pol : NonePolicy) : List (Option Bytes) → List (Option Bytes) × Nat × Bool
  | [] => ([], 0, true)
  | r :: rest =>
    match r with
    | none =>
      let rec1 := streamGo pol rest
      match pol with
      | .yieldSentinel => (none :: rec1.1, rec1.2.1 + 1, rec1.2.2)
      | .skip => (rec1.1, rec1.2.1 + 1, rec1.2.2)
    | some raw =>
      if responseStatus raw = NO_COUNT_LABEL then ([some raw], 1, false)
      else
        let rec1 := streamGo pol rest
        (some raw :: rec1.1, rec1.2.1 + 1, rec1.2.2)

/-- A memory-streaming loop entered with flag `inv`: with the flag already
cleared the `while` body never runs and the epilogue sets the flag `false`. -/
def streamLoop (pol : NonePolicy) (inv : Bool) (input : List (Option Bytes)) :
    List (Option Bytes) × Nat × Bool :=
  if inv then streamGo pol input else ([], 0, false)

/-- The `read_memory` streaming loop (yields the `None` sentinel). -/
def readMemoryRun (inv : Bool) (input : List (Option Bytes)) :
    List (Option Bytes) × Nat × Bool :=
  streamLoop .yieldSentinel inv input

/-- The `write_memory` streaming loop (bare `continue` on a `None` receive). -/
def writeMemoryRun (inv : Bool) (input : List (Option Bytes)) :
    List (Option Bytes) × Nat × Bool :=
  streamLoop .skip inv input

/-- The `lock_memory` streaming loop (bare `continue` on a `None` receive). -/
def lockMemoryRun (inv : Bool) (input : List (Option Bytes)) :
    List (Option Bytes) × Nat × Bool :=
  streamLoop .skip inv input

/-- The `kill_tag` streaming loop (bare `continue` on a `None` receive). -/
def killTagRun (inv : Bool) (input : List (Option Bytes)) :
    List (Option Bytes) × Nat × Bool :=
  streamLoop .skip inv input

/-!
## The `start_inventory` streaming loop (`Reader.start_inventory`, lines 559-618)

Each iteration calls `__receive_response(cmd_request, verify_header=False,
loop_usb=False)`; its outcome is one element of the input list:
`timeout` (a `USBError`/`TimeoutError` was raised), or `res r` (the call
returned `r`).  The processing of a non-empty raw buffer is `processFrame`.
-/

/-- One receive outcome inside `start_inventory`. -/
inductive RecvOutcome
  | timeout
  | res (r : Option Bytes)
  deriving DecidableEq

/-- How a run of a streaming loop ended: `terminated` (the loop finished and
`is_inventory` was set `false`), `blocked` (the supplied receive results ran
out with the loop still going), or `crashed` (an uncaught Python exception:
`IndexError` on a short buffer or `ValueError` from an unknown enum value). -/
inductive RunEnd
  | terminated
  | blocked
  | crashed
  deriving DecidableEq

/-- What `start_inventory` does with one non-empty raw buffer
(lines 580-614 of `reader.py`):

```
if response[0] != HEADER: continue
header_section = response[0:5]
length = response[4]
command_request = CommandRequest(int.from_bytes(header_section[2:4], "big"))
if command_request == CommandRequest.INVENTORY_STOP: continue
body_n_checksum_section = response[5: 4 + length + 2 + 1]
status = InventoryStatus(body_n_checksum_section[0])
body_section = body_n_checksum_section[1:-2]
if len(body_n_checksum_section) - 2 != length: continue
if isinstance(self.transport, UsbTransport) and status == InventoryStatus.SUCCESS:
    tag_length = body_section[4]
    tag_data = body_section[0:tag_length]
    if len(tag_data) != tag_length: continue
frame = header_section + body_n_checksum_section
yield ResponseInventory(frame)
if status == InventoryStatus.NO_COUNT_LABEL: break
```

`skip` is a `continue`, `crash` an uncaught exception, `emit f last` a yield
of the frame `f` (with `last` set when the status is the terminator). -/
inductive FrameOutcome
  | skip
  | crash
  | emit (frame : Bytes) (last : Bool)
  deriving DecidableEq

/-- `body_n_checksum_section = response[5: 4 + length + 2 + 1]` with
`length = response[4]`: the `LENGTH + 2` bytes following the 5-byte prefix. -/
def bodyChecksum (raw : Bytes) : Bytes :=
  (raw.drop 5).take (raw.getD 4 0 + 2)

/-- `status = InventoryStatus(body_n_checksum_section[0])`: the status byte
value (validity against the enumeration is checked in `processFrame`). -/
def invStatus (raw : Bytes) : Nat :=
  (bodyChecksum raw).headD 0

/-- `body_section = body_n_checksum_section[1:-2]`. -/
def bodySection (raw : Bytes) : Bytes :=
  ((bodyChecksum raw).drop 1).take ((bodyChecksum raw).length - 3)

/-- See `FrameOutcome`.  The Python-length comparison
`len(body_n_checksum_section) - 2 != length` is over `Int` (Python integers
do not truncate at zero), and `len(tag_data)` is
`min (len(body_section)) tag_length` because a Python slice clamps. -/
def processFrame (usb : Bool) (raw : Bytes) : FrameOutcome :=
  if raw.headD 0 ≠ HEADER then .skip
  else if raw.length < 5 then .crash
  else if rawOpcode raw ∉ knownOpcodes then .crash
  else if rawOpcode raw = INVENTORY_STOP then .skip
  else if (bodyChecksum raw).length = 0 then .crash
  else if invStatus raw ∉ knownInvStatuses then .crash
  else if ((bodyChecksum raw).length : Int) - 2 ≠ (raw.getD 4 0 : Int) then .skip
  else if usb ∧ invStatus raw = SUCCESS ∧ (bodySection raw).length < 5 then .crash
  else if usb ∧ invStatus raw = SUCCESS ∧
      min (bodySection raw).length ((bodySection raw).getD 4 0) ≠
        (bodySection raw).getD 4 0 then .skip
  else .emit (raw.take 5 ++ bodyChecksum raw) (invStatus raw = NO_COUNT_LABEL)

/-- The first complete frame held in a raw buffer: the 5-byte prefix plus
`LENGTH + 2` further bytes, `LENGTH` being the buffer byte at index 4 —
exactly the `header_section + body_n_checksum_section` of `start_inventory`. -/
def frameSlice (raw : Bytes) : Bytes :=
  raw.take 5 ++ bodyChecksum raw

/-- The `while self.is_inventory` loop of `start_inventory`, recursing on the
receive outcomes.  A `timeout` and an empty/`None` receive both yield the
`None` sentinel and continue; a non-HEADER first byte is a silent `continue`. -/
def inventoryGo (usb : Bool) : List RecvOutcome → List (Option Bytes) × Nat × RunEnd
  | [] => ([], 0, .blocked)
  | o :: rest =>
    match o with
    | .timeout =>
      let rec1 := inventoryGo usb rest
      (none :: rec1.1, rec1.2.1 + 1, rec1.2.2)
    | .res none =>
      let rec1 := inventoryGo usb rest
      (none :: rec1.1, rec1.2.1 + 1, rec1.2.2)
    | .res (some raw) =>
      if raw.length = 0 then
        let rec1 := inventoryGo usb rest
        (none :: rec1.1, rec1.2.1 + 1, rec1.2.2)
      else
        match processFrame usb raw with
        | .skip =>
          let rec1 := inventoryGo usb rest
          (rec1.1, rec1.2.1 + 1, rec1.2.2)
        | .crash => ([], 1, .crashed)
        | .emit f true => ([some f], 1, .terminated)
        | .emit f false =>
          let rec1 := inventoryGo usb rest
          (some f :: rec1.1, rec1.2.1 + 1, rec1.2.2)

/-- The `start_inventory` streaming loop entered with flag `inv`; with the
flag already cleared the loop body never runs and the epilogue sets the flag
`false` (`terminated`). -/
def inventoryRun (usb : Bool) (inv : Bool) (input : List RecvOutcome) :
    List (Option Bytes) × Nat × RunEnd :=
  if inv then inventoryGo usb input else ([], 0, .terminated)

/-!
## Entry points: `stop_inventory`, `set_power`, `select_mask`, `start_inventory`
-/

/-- Modelled from the spec: the `WorkMode` enumeration lives in
`rfid/reader_settings.py`, not under `src/`; the spec names
`ANSWER_MODE, ACTIVE_MODE, TRIGGER_MODE, …`. -/
inductive WorkMode
  | answerMode
  | activeMode
  | triggerMode
  deriving DecidableEq

/-- One observable transport interaction of an engine operation:
`clearBuffer` is `transport.clear_buffer()`, `write op data` is
`transport.write_bytes(Command(op, data).serialize())` (recorded as the
opcode and payload the `Command` was built from), `tryRecv` is a
`__receive_response` attempt. -/
inductive TAction
  | clearBuffer
  | write (opcode : Nat) (data : Bytes)
  | tryRecv
  deriving DecidableEq

/-- `Reader.stop_inventory(work_mode)` (lines 511-531):

```
if work_mode == WorkMode.ANSWER_MODE:
    if self.is_inventory:
        self.__send_request(Command(INVENTORY_STOP), clear_buffer=False)
    try:
        self.__receive_response(cmd_request)
    except (USBError, TimeoutError):
        pass
self.is_inventory = False
```

`recvOutcome` is what the attempted receive does (`timeout` = it raised);
the result is the new `is_inventory` flag and the transport-action log. -/
def stopInventory (mode : WorkMode) (invBefore : Bool) (recvOutcome : RecvOutcome) :
    Bool × List TAction :=
  if mode = .answerMode then
    (false, (if invBefore then [TAction.write INVENTORY_STOP []] else []) ++ [TAction.tryRecv])
  else (false, [])

/-- The error classes an engine entry point can raise before doing transport
work: `invalidArgument` is a failed argument `assert` (spec:
`ProtocolError::InvalidArgument`), `byteRange` a `ValueError` from putting a
value ≥ 256 into a `bytearray`, `overflow` an `int.to_bytes` overflow,
`valueError` the explicit `raise ValueError` of `start_inventory`. -/
inductive EngineError
  | invalidArgument
  | byteRange
  | overflow
  | valueError
  deriving DecidableEq

/-- `Reader.set_power(power)` with the default `reserve = 0` (lines 130-138):
`assert (0 <= power <= 33) and (0x00 <= reserve <= 0x01)` precedes every
transport call; on success `__send_request` clears the buffer, writes
`Command(SET_POWER, bytearray([power, reserve]))` and one receive follows. -/
def setPower (power : Int) : Except EngineError (List TAction) :=
  if 0 ≤ power ∧ power ≤ 33 then
    .ok [TAction.clearBuffer, TAction.write SET_POWER [power.toNat, 0], TAction.tryRecv]
  else .error .invalidArgument

/-- Python `n.to_bytes(2, "big")`: two big-endian bytes, `OverflowError`
(`none`) when `n ≥ 2^16`. -/
def toBytes2BE (n : Nat) : Option Bytes :=
  if n < 65536 then some [n / 256 % 256, n % 256] else none

/-- The command payload built by `Reader.select_mask(mask, start_address)`
(lines 259-284):

```
start_address = (start_address * 8).to_bytes(2, "big")
data = bytearray(start_address)
length = len(mask) * 8
data.extend([length])          # ValueError when length > 255
if len(mask) % 2 != 0:
    mask = mask + bytes(1)
data.extend(mask)
```

The returned value is the `data` payload handed to `Command(SELECT_MASK, data)`. -/
def selectMask (mask : Bytes) (startAddress : Nat) : Except EngineError Bytes :=
  match toBytes2BE (startAddress * 8) with
  | none => .error .overflow
  | some saBytes =>
    if mask.length * 8 < 256 then
      .ok (saBytes ++ [mask.length * 8] ++
        (if mask.length % 2 ≠ 0 then mask ++ [0] else mask))
    else .error .byteRange

/-- Modelled from the spec: `StopAfter` lives in `rfid/reader_settings.py`,
not under `src/`; the spec names `StopAfter {TIME, NUMBER}`. -/
inductive StopAfter
  | time
  | number
  deriving DecidableEq

/-- Modelled from the spec: byte values of the `StopAfter` members (exact
values live in `rfid/reader_settings.py`; placeholders fixed up to
distinctness). -/
def StopAfter.toByte : StopAfter → Nat
  | .time => 0x01
  | .number => 0x02

/-- Modelled from the spec: `AnswerModeInventoryParameter` of
`rfid/reader_settings.py` (not under `src/`): a `StopAfter` selector and a
value serialized as 4 big-endian bytes. -/
structure AnswerModeInventoryParameter where
  stopAfter : StopAfter
  value : Nat
  deriving DecidableEq

/-- The entry section of `Reader.start_inventory` (lines 544-557), up to the
streaming loop:

```
self.is_inventory = True
if work_mode == WorkMode.ANSWER_MODE and answer_mode_inventory_parameter is None:
    raise ValueError("Answer mode inventory parameter is None")
if work_mode == WorkMode.ANSWER_MODE and answer_mode_inventory_parameter is not None:
    data = bytearray([answer_mode_inventory_parameter.stop_after.value])
    data.extend(answer_mode_inventory_parameter.value.to_bytes(4, "big"))
    self.__send_request(Command(cmd_request, data), clear_buffer=True)
```

Result: the raised error (if any), the `is_inventory` flag after the entry
section, and the transport-action log.  `value.to_bytes(4)` of the parameter
is recorded via `% 2^32` digits (callers pass small counts). -/
def startInventoryEntry (mode : WorkMode) (param : Option AnswerModeInventoryParameter) :
    Option EngineError × Bool × List TAction :=
  if mode = .answerMode ∧ param = none then (some .valueError, true, [])
  else
    match mode, param with
    | .answerMode, some p =>
      (none, true,
        [TAction.clearBuffer,
         TAction.write INVENTORY_ISO_CONTINUE
           (p.stopAfter.toByte ::
             [p.value / 16777216 % 256, p.value / 65536 % 256,
              p.value / 256 % 256, p.value % 256])])
    | _, _ => (none, true, [])

/-!
## Helper lemmas
-/

/-- `headD` of a positive-length `take` is `headD` of the list. -/
theorem headD_take_pos (l : Bytes) (n : Nat) (d : Nat) (h : 0 < n) :
    (l.take n).headD d = l.headD d := by
  cases l with
  | nil => simp
  | cons a t =>
    cases n with
    | zero => exact absurd h (by simp)
    | succ m => simp

/-- `headD` after `drop n` is `getD n`. -/
theorem headD_drop_eq_getD (l : Bytes) (n : Nat) (d : Nat) :
    (l.drop n).headD d = l.getD n d := by
  induction l generalizing n with
  | nil => simp
  | cons a t ih =>
    cases n with
    | zero => simp
    | succ m => simp [ih m]

/-- `headD` looks only at the first list of an append when it is nonempty. -/
theorem headD_append_left (l l2 : Bytes) (d : Nat) (h : l ≠ []) :
    (l ++ l2).headD d = l.headD d := by
  cases l with
  | nil => exact absurd rfl h
  | cons a t => simp

/-- The retry loop consumes at most `fuel` receive results. -/
theorem recvLoop_consumed_le (e : Nat) :
    ∀ (fuel : Nat) (input : List (Option Bytes)), (recvLoop e fuel input).2.2 ≤ fuel := by
  intro fuel
  induction fuel with
  | zero => intro input; simp [recvLoop]
  | succ n ih =>
    intro input
    cases input with
    | nil => simp [recvLoop]
    | cons r rest =>
      cases r with
      | none => simp [recvLoop]
      | some raw =>
        simp only [recvLoop]
        split
        · simp
        · split
          · simp
          · have h := ih rest
            show 1 + (recvLoop e n rest).2.2 ≤ n + 1
            omega

/-- A receive result whose status byte is the terminator ends a
memory-streaming loop: it is yielded, nothing further is consumed, and the
flag is cleared. -/
theorem streamGo_terminator (pol : NonePolicy) (raw : Bytes) (rest : List (Option Bytes))
    (h : responseStatus raw = NO_COUNT_LABEL) :
    streamGo pol (some raw :: rest) = ([some raw], 1, false) := by
  simp [streamGo, h]

/-- Bounded termination of a memory-streaming loop: with a terminator-status
receive result after `pre` other results, the loop consumes at most
`pre.length + 1` results and ends with the flag cleared. -/
theorem streamGo_bounded (pol : NonePolicy) (raw : Bytes)
    (h : responseStatus raw = NO_COUNT_LABEL) :
    ∀ (pre rest : List (Option Bytes)),
      (streamGo pol (pre ++ some raw :: rest)).2.1 ≤ pre.length + 1 ∧
      (streamGo pol (pre ++ some raw :: rest)).2.2 = false := by
  intro pre
  induction pre with
  | nil =>
    intro rest
    rw [List.nil_append, streamGo_terminator pol raw rest h]
    exact ⟨Nat.le_refl 1, rfl⟩
  | cons x t ih =>
    intro rest
    have h2 := ih rest
    cases x with
    | none =>
      cases pol with
      | yieldSentinel =>
        refine ⟨?_, ?_⟩
        · show (streamGo NonePolicy.yieldSentinel (t ++ some raw :: rest)).2.1 + 1 ≤
            t.length + 1 + 1
          have h3 := h2.1
          omega
        · exact h2.2
      | skip =>
        refine ⟨?_, ?_⟩
        · show (streamGo NonePolicy.skip (t ++ some raw :: rest)).2.1 + 1 ≤
            t.length + 1 + 1
          have h3 := h2.1
          omega
        · exact h2.2
    | some w =>
      by_cases hw : responseStatus w = NO_COUNT_LABEL
      · rw [List.cons_append, streamGo_terminator pol w _ hw]
        exact ⟨by show 1 ≤ t.length + 1 + 1; omega, rfl⟩
      · refine ⟨?_, ?_⟩
        · show (if responseStatus w = NO_COUNT_LABEL then
              (([some w], 1, false) : List (Option Bytes) × Nat × Bool)
            else
              ((some w :: (streamGo pol (t ++ some raw :: rest)).1,
                (streamGo pol (t ++ some raw :: rest)).2.1 + 1,
                (streamGo pol (t ++ some raw :: rest)).2.2))).2.1 ≤ t.length + 1 + 1
          rw [if_neg hw]
          show (streamGo pol (t ++ some raw :: rest)).2.1 + 1 ≤ t.length + 1 + 1
          have h3 := h2.1
          omega
        · show (if responseStatus w = NO_COUNT_LABEL then
              (([some w], 1, false) : List (Option Bytes) × Nat × Bool)
            else
              ((some w :: (streamGo pol (t ++ some raw :: rest)).1,
                (streamGo pol (t ++ some raw :: rest)).2.1 + 1,
                (streamGo pol (t ++ some raw :: rest)).2.2))).2.2 = false
          rw [if_neg hw]
          exact h2.2

/-- A well-formed terminator frame — first byte `HEADER`, buffer length equal
to the full frame length `5 + LENGTH + 2`, opcode `INVENTORY_ISO_CONTINUE`,
status byte `NO_COUNT_LABEL` — is emitted by `start_inventory`'s frame
processing with the terminator mark. -/
theorem processFrame_terminator (usb : Bool) (raw : Bytes)
    (h1 : raw.headD 0 = HEADER)
    (h2 : raw.length = 7 + raw.getD 4 0)
    (h3 : rawOpcode raw = INVENTORY_ISO_CONTINUE)
    (h4 : responseStatus raw = NO_COUNT_LABEL) :
    processFrame usb raw = .emit (frameSlice raw) true := by
  have hbc : (bodyChecksum raw).length = raw.getD 4 0 + 2 := by
    simp only [bodyChecksum, List.length_take, List.length_drop, h2]
    omega
  have hstat : invStatus raw = NO_COUNT_LABEL := by
    rw [invStatus, bodyChecksum, headD_take_pos _ _ _ (by omega), headD_drop_eq_getD]
    exact h4
  unfold processFrame
  rw [if_neg (fun hx => hx h1), if_neg (by omega), if_neg (by rw [h3]; decide),
    if_neg (by rw [h3]; decide), if_neg (by rw [hbc]; omega),
    if_neg (by rw [hstat]; decide), if_neg (by rw [hbc]; omega),
    if_neg (by rintro ⟨-, hS, -⟩; rw [hstat] at hS; exact absurd hS (by decide)),
    if_neg (by rintro ⟨-, hS, -⟩; rw [hstat] at hS; exact absurd hS (by decide))]
  simp [frameSlice, hstat]

/-- `start_inventory` step on a `USBError`/`TimeoutError`: yield the `None`
sentinel and continue. -/
theorem inventoryGo_timeout_step (usb : Bool) (rest : List RecvOutcome) :
    inventoryGo usb (.timeout :: rest) =
      (none :: (inventoryGo usb rest).1, (inventoryGo usb rest).2.1 + 1,
        (inventoryGo usb rest).2.2) := rfl

/-- `start_inventory` step on a `None` receive: yield the `None` sentinel and
continue. -/
theorem inventoryGo_resNone_step (usb : Bool) (rest : List RecvOutcome) :
    inventoryGo usb (.res none :: rest) =
      (none :: (inventoryGo usb rest).1, (inventoryGo usb rest).2.1 + 1,
        (inventoryGo usb rest).2.2) := rfl

/-- `start_inventory` step on a non-empty raw buffer is governed by
`processFrame`. -/
theorem inventoryGo_some_step (usb : Bool) (raw : Bytes) (rest : List RecvOutcome)
    (hne : ¬ raw.length = 0) :
    inventoryGo usb (.res (some raw) :: rest) =
      (match processFrame usb raw with
      | .skip =>
        ((inventoryGo usb rest).1, (inventoryGo usb rest).2.1 + 1,
          (inventoryGo usb rest).2.2)
      | .crash => ([], 1, .crashed)
      | .emit f true => ([some f], 1, .terminated)
      | .emit f false =>
        (some f :: (inventoryGo usb rest).1, (inventoryGo usb rest).2.1 + 1,
          (inventoryGo usb rest).2.2)) := by
  simp only [inventoryGo, if_neg hne]

/-- C1 (code_bug): the USB one-shot receive stops one byte short of the
declared total frame length.  With a first bulk packet of 9 bytes whose
LENGTH field (byte index 4) is 3, the declared total frame length is
`5 + 3 + 2 = 10`, yet the loop threshold is `4 + 3 + 2 = 9`, so the engine
returns the 9-byte buffer without ever reading the available second packet
holding the frame's last byte. -/
theorem c1_usb_oneshot_stops_one_byte_short :
    usbReceive true [[0xCF, 0, 0, 1, 3, 9, 9, 9, 9], [7]] =
      some [0xCF, 0, 0, 1, 3, 9, 9, 9, 9] ∧
    ([0xCF, 0, 0, 1, 3, 9, 9, 9, 9] : Bytes).length <
      5 + ([0xCF, 0, 0, 1, 3, 9, 9, 9, 9] : Bytes).getD 4 0 + 2 := by
  constructor
  · rfl
  · decide

/-- C2 (counterexample to the claim as stated): in the one-shot receive loop
a frame with a valid header but a mismatched opcode is retried WITHOUT any
buffer flush: expecting `GET_ALL_PARAM`, a first frame carrying opcode
`SET_GET_NETWORK` is discarded, the second (matching) frame is returned, and
the flush count of the whole run is `0`. -/
theorem c2_mismatch_does_not_flush :
    receiveResponse GET_ALL_PARAM
      [some [0xCF, 0, 0, 0x79, 1, 0, 0, 0], some [0xCF, 0, 0, 0x72, 1, 0, 0, 0]] =
      (some [0xCF, 0, 0, 0x72, 1, 0, 0, 0], 0, 2) ∧
    rawOpcode [0xCF, 0, 0, 0x79, 1, 0, 0, 0] ≠ GET_ALL_PARAM := by
  constructor
  · rfl
  · decide

/-- C2 (amended): the one-shot receive loop runs at most 20 attempts; a frame
whose opcode matches ends the loop and is returned; on a mismatch it retries,
flushing only when the frame's first byte is not HEADER; three valid-header
frames with a wrong opcode followed by one with the expected opcode are
discarded (with no flush) and the fourth is returned. -/
theorem c2_receive_loop_amended :
    (∀ (e : Nat) (input : List (Option Bytes)),
      (receiveResponse e input).2.2 ≤ 20) ∧
    receiveResponse GET_ALL_PARAM [some [0xCF, 0, 0, 0x72, 1, 0, 0, 0]] =
      (some [0xCF, 0, 0, 0x72, 1, 0, 0, 0], 0, 1) ∧
    receiveResponse GET_ALL_PARAM
      [some [0xCF, 0, 0, 0x79, 1, 0, 0, 0], some [0xCF, 0, 0, 0x79, 1, 0, 0, 0],
       some [0xCF, 0, 0, 0x79, 1, 0, 0, 0], some [0xCF, 0, 0, 0x72, 1, 0, 0, 0]] =
      (some [0xCF, 0, 0, 0x72, 1, 0, 0, 0], 0, 4) ∧
    receiveResponse GET_ALL_PARAM
      [some [0x11, 0, 0, 0x79, 1, 0, 0, 0], some [0xCF, 0, 0, 0x72, 1, 0, 0, 0]] =
      (some [0xCF, 0, 0, 0x72, 1, 0, 0, 0], 1, 2) := by
  refine ⟨fun e input => recvLoop_consumed_le e 20 input, ?_, ?_, ?_⟩
  · rfl
  · rfl
  · rfl

/-- `start_inventory` step on an empty raw buffer: yield the `None` sentinel
and continue. -/
theorem inventoryGo_emptyRaw_step (usb : Bool) (raw : Bytes) (rest : List RecvOutcome)
    (hz : raw.length = 0) :
    inventoryGo usb (.res (some raw) :: rest) =
      (none :: (inventoryGo usb rest).1, (inventoryGo usb rest).2.1 + 1,
        (inventoryGo usb rest).2.2) := by
  simp only [inventoryGo, if_pos hz]

/-- Bounded termination of the `start_inventory` loop: with a receive result
whose frame processing emits a terminator after `pre` other results, the loop
consumes at most `pre.length + 1` results and does not block. -/
theorem inventoryGo_bounded (usb : Bool) (raw f : Bytes)
    (hne : ¬ raw.length = 0) (hpf : processFrame usb raw = .emit f true) :
    ∀ (pre rest : List RecvOutcome),
      (inventoryGo usb (pre ++ .res (some raw) :: rest)).2.1 ≤ pre.length + 1 ∧
      (inventoryGo usb (pre ++ .res (some raw) :: rest)).2.2 ≠ RunEnd.blocked := by
  intro pre
  induction pre with
  | nil =>
    intro rest
    rw [List.nil_append, inventoryGo_some_step usb raw rest hne, hpf]
    exact ⟨Nat.le_refl 1, show RunEnd.terminated ≠ RunEnd.blocked by decide⟩
  | cons x t ih =>
    intro rest
    have h2 := ih rest
    cases x with
    | timeout =>
      rw [List.cons_append, inventoryGo_timeout_step]
      refine ⟨?_, h2.2⟩
      show (inventoryGo usb (t ++ .res (some raw) :: rest)).2.1 + 1 ≤ t.length + 1 + 1
      have h3 := h2.1
      omega
    | res r =>
      cases r with
      | none =>
        rw [List.cons_append, inventoryGo_resNone_step]
        refine ⟨?_, h2.2⟩
        show (inventoryGo usb (t ++ .res (some raw) :: rest)).2.1 + 1 ≤ t.length + 1 + 1
        have h3 := h2.1
        omega
      | some w =>
        by_cases hw : w.length = 0
        · rw [List.cons_append, inventoryGo_emptyRaw_step usb w _ hw]
          refine ⟨?_, h2.2⟩
          show (inventoryGo usb (t ++ .res (some raw) :: rest)).2.1 + 1 ≤ t.length + 1 + 1
          have h3 := h2.1
          omega
        · rw [List.cons_append, inventoryGo_some_step usb w _ hw]
          cases hpw : processFrame usb w with
          | skip =>
            refine ⟨?_, h2.2⟩
            show (inventoryGo usb (t ++ .res (some raw) :: rest)).2.1 + 1 ≤ t.length + 1 + 1
            have h3 := h2.1
            omega
          | crash =>
            exact ⟨by show 1 ≤ t.length + 1 + 1; omega,
              show RunEnd.crashed ≠ RunEnd.blocked by decide⟩
          | emit g last =>
            cases last with
            | true =>
              exact ⟨by show 1 ≤ t.length + 1 + 1; omega,
                show RunEnd.terminated ≠ RunEnd.blocked by decide⟩
            | false =>
              refine ⟨?_, h2.2⟩
              show (inventoryGo usb (t ++ .res (some raw) :: rest)).2.1 + 1 ≤ t.length + 1 + 1
              have h3 := h2.1
              omega

/-- C3: in every streaming operation (`start_inventory`, `read_memory`,
`write_memory`, `lock_memory`, `kill_tag`) a received frame whose status is
`NO_COUNT_LABEL` is yielded and then the sequence ends with the busy flag
cleared; an inventory fed two SUCCESS frames and then a `NO_COUNT_LABEL`
frame yields exactly those three responses and terminates. -/
theorem c3_terminator_ends_stream :
    (∀ (rest : List (Option Bytes)) (raw : Bytes),
      responseStatus raw = NO_COUNT_LABEL →
      readMemoryRun true (some raw :: rest) = ([some raw], 1, false)) ∧
    (∀ (rest : List (Option Bytes)) (raw : Bytes),
      responseStatus raw = NO_COUNT_LABEL →
      writeMemoryRun true (some raw :: rest) = ([some raw], 1, false)) ∧
    (∀ (rest : List (Option Bytes)) (raw : Bytes),
      responseStatus raw = NO_COUNT_LABEL →
      lockMemoryRun true (some raw :: rest) = ([some raw], 1, false)) ∧
    (∀ (rest : List (Option Bytes)) (raw : Bytes),
      responseStatus raw = NO_COUNT_LABEL →
      killTagRun true (some raw :: rest) = ([some raw], 1, false)) ∧
    (∀ (usb : Bool) (rest : List RecvOutcome) (raw : Bytes),
      raw.headD 0 = HEADER →
      raw.length = 7 + raw.getD 4 0 →
      rawOpcode raw = INVENTORY_ISO_CONTINUE →
      responseStatus raw = NO_COUNT_LABEL →
      inventoryRun usb true (.res (some raw) :: rest) =
        ([some (frameSlice raw)], 1, .terminated)) ∧
    inventoryRun false true
      [.res (some [0xCF, 0, 0, 1, 7, 0, 1, 2, 3, 4, 5, 6, 0, 0]),
       .res (some [0xCF, 0, 0, 1, 7, 0, 9, 8, 7, 6, 5, 4, 0, 0]),
       .res (some [0xCF, 0, 0, 1, 1, 1, 0, 0])] =
      ([some [0xCF, 0, 0, 1, 7, 0, 1, 2, 3, 4, 5, 6, 0, 0],
        some [0xCF, 0, 0, 1, 7, 0, 9, 8, 7, 6, 5, 4, 0, 0],
        some [0xCF, 0, 0, 1, 1, 1, 0, 0]], 3, .terminated) := by
  refine ⟨?_, ?_, ?_, ?_, ?_, by rfl⟩
  · exact fun rest raw h => streamGo_terminator NonePolicy.yieldSentinel raw rest h
  · exact fun rest raw h => streamGo_terminator NonePolicy.skip raw rest h
  · exact fun rest raw h => streamGo_terminator NonePolicy.skip raw rest h
  · exact fun rest raw h => streamGo_terminator NonePolicy.skip raw rest h
  · intro usb rest raw h1 h2 h3 h4
    have hne : ¬ raw.length = 0 := by omega
    show inventoryGo usb (.res (some raw) :: rest) = ([some (frameSlice raw)], 1, .terminated)
    rw [inventoryGo_some_step usb raw rest hne,
      processFrame_terminator usb raw h1 h2 h3 h4]

/-- Witness for C3 at concrete inputs: a terminator frame ends each of the
five streams. -/
theorem c3_witness :
    readMemoryRun true [some [0, 0, 0, 0, 0, 1], some [5]] =
      ([some [0, 0, 0, 0, 0, 1]], 1, false) ∧
    writeMemoryRun true [some [0, 0, 0, 0, 0, 1]] = ([some [0, 0, 0, 0, 0, 1]], 1, false) ∧
    lockMemoryRun true [some [0, 0, 0, 0, 0, 1]] = ([some [0, 0, 0, 0, 0, 1]], 1, false) ∧
    killTagRun true [some [0, 0, 0, 0, 0, 1]] = ([some [0, 0, 0, 0, 0, 1]], 1, false) ∧
    inventoryRun true true [.res (some [0xCF, 0, 0, 1, 1, 1, 0, 0])] =
      ([some (frameSlice [0xCF, 0, 0, 1, 1, 1, 0, 0])], 1, .terminated) :=
  ⟨c3_terminator_ends_stream.1 [some [5]] [0, 0, 0, 0, 0, 1] (by decide),
   c3_terminator_ends_stream.2.1 [] [0, 0, 0, 0, 0, 1] (by decide),
   c3_terminator_ends_stream.2.2.1 [] [0, 0, 0, 0, 0, 1] (by decide),
   c3_terminator_ends_stream.2.2.2.1 [] [0, 0, 0, 0, 0, 1] (by decide),
   c3_terminator_ends_stream.2.2.2.2.1 true [] [0xCF, 0, 0, 1, 1, 1, 0, 0]
     (by decide) (by decide) (by decide) (by decide)⟩

/-- C4 (counterexample to the claim as stated): a no-frame iteration in
`write_memory`, `lock_memory` and `kill_tag` yields nothing at all — the
`None` receive is consumed and the loop just continues, so the claimed
sentinel `None` never reaches the caller. -/
theorem c4_write_lock_kill_skip_sentinel :
    writeMemoryRun true [none] = ([], 1, true) ∧
    lockMemoryRun true [none] = ([], 1, true) ∧
    killTagRun true [none] = ([], 1, true) := by
  exact ⟨rfl, rfl, rfl⟩

/-- C4 (amended): on an iteration with no frame, `read_memory` and
`start_inventory` yield the sentinel `None` and continue, while
`write_memory`, `lock_memory` and `kill_tag` continue without yielding. -/
theorem c4_sentinel_policy :
    (∀ rest : List (Option Bytes),
      readMemoryRun true (none :: rest) =
        (none :: (streamGo .yieldSentinel rest).1,
          (streamGo .yieldSentinel rest).2.1 + 1, (streamGo .yieldSentinel rest).2.2)) ∧
    (∀ rest : List (Option Bytes),
      writeMemoryRun true (none :: rest) =
        ((streamGo .skip rest).1, (streamGo .skip rest).2.1 + 1,
          (streamGo .skip rest).2.2)) ∧
    (∀ rest : List (Option Bytes),
      lockMemoryRun true (none :: rest) =
        ((streamGo .skip rest).1, (streamGo .skip rest).2.1 + 1,
          (streamGo .skip rest).2.2)) ∧
    (∀ rest : List (Option Bytes),
      killTagRun true (none :: rest) =
        ((streamGo .skip rest).1, (streamGo .skip rest).2.1 + 1,
          (streamGo .skip rest).2.2)) ∧
    (∀ (usb : Bool) (rest : List RecvOutcome),
      inventoryRun usb true (.timeout :: rest) =
        (none :: (inventoryGo usb rest).1, (inventoryGo usb rest).2.1 + 1,
          (inventoryGo usb rest).2.2)) ∧
    (∀ (usb : Bool) (rest : List RecvOutcome),
      inventoryRun usb true (.res none :: rest) =
        (none :: (inventoryGo usb rest).1, (inventoryGo usb rest).2.1 + 1,
          (inventoryGo usb rest).2.2)) :=
  ⟨fun _ => rfl, fun _ => rfl, fun _ => rfl, fun _ => rfl,
   fun _ _ => rfl, fun _ _ => rfl⟩

/-- C6: every streaming sequence terminates within a bounded number of
iterations, given either (a) a receive result with terminator status
(consuming at most one result beyond those before it, ending with the busy
flag cleared / not blocked), or (b) `stop_inventory` having cleared the busy
flag (the loop body never runs). -/
theorem c6_bounded_termination :
    (∀ (pre rest : List (Option Bytes)) (raw : Bytes),
      responseStatus raw = NO_COUNT_LABEL →
      (readMemoryRun true (pre ++ some raw :: rest)).2.1 ≤ pre.length + 1 ∧
      (readMemoryRun true (pre ++ some raw :: rest)).2.2 = false) ∧
    (∀ (pre rest : List (Option Bytes)) (raw : Bytes),
      responseStatus raw = NO_COUNT_LABEL →
      (writeMemoryRun true (pre ++ some raw :: rest)).2.1 ≤ pre.length + 1 ∧
      (writeMemoryRun true (pre ++ some raw :: rest)).2.2 = false) ∧
    (∀ (pre rest : List (Option Bytes)) (raw : Bytes),
      responseStatus raw = NO_COUNT_LABEL →
      (lockMemoryRun true (pre ++ some raw :: rest)).2.1 ≤ pre.length + 1 ∧
      (lockMemoryRun true (pre ++ some raw :: rest)).2.2 = false) ∧
    (∀ (pre rest : List (Option Bytes)) (raw : Bytes),
      responseStatus raw = NO_COUNT_LABEL →
      (killTagRun true (pre ++ some raw :: rest)).2.1 ≤ pre.length + 1 ∧
      (killTagRun true (pre ++ some raw :: rest)).2.2 = false) ∧
    (∀ (usb : Bool) (pre rest : List RecvOutcome) (raw : Bytes),
      raw.headD 0 = HEADER →
      raw.length = 7 + raw.getD 4 0 →
      rawOpcode raw = INVENTORY_ISO_CONTINUE →
      responseStatus raw = NO_COUNT_LABEL →
      (inventoryRun usb true (pre ++ .res (some raw) :: rest)).2.1 ≤ pre.length + 1 ∧
      (inventoryRun usb true (pre ++ .res (some raw) :: rest)).2.2 ≠ RunEnd.blocked) ∧
    (∀ (pol : NonePolicy) (input : List (Option Bytes)),
      streamLoop pol false input = ([], 0, false)) ∧
    (∀ (usb : Bool) (input : List RecvOutcome),
      inventoryRun usb false input = ([], 0, .terminated)) := by
  refine ⟨?_, ?_, ?_, ?_, ?_, fun pol input => rfl, fun usb input => rfl⟩
  · exact fun pre rest raw h => streamGo_bounded NonePolicy.yieldSentinel raw h pre rest
  · exact fun pre rest raw h => streamGo_bounded NonePolicy.skip raw h pre rest
  · exact fun pre rest raw h => streamGo_bounded NonePolicy.skip raw h pre rest
  · exact fun pre rest raw h => streamGo_bounded NonePolicy.skip raw h pre rest
  · intro usb pre rest raw h1 h2 h3 h4
    have hne : ¬ raw.length = 0 := by omega
    exact inventoryGo_bounded usb raw (frameSlice raw) hne
      (processFrame_terminator usb raw h1 h2 h3 h4) pre rest

/-- Witness for C6 at concrete inputs: a sentinel iteration followed by a
terminator frame ends each stream in at most two consumed receives, and a
cleared flag stops the loops at once. -/
theorem c6_witness :
    ((readMemoryRun true ([none] ++ some [0, 0, 0, 0, 0, 1] :: [])).2.1 ≤
        ([none] : List (Option Bytes)).length + 1 ∧
      (readMemoryRun true ([none] ++ some [0, 0, 0, 0, 0, 1] :: [])).2.2 = false) ∧
    ((writeMemoryRun true ([none] ++ some [0, 0, 0, 0, 0, 1] :: [])).2.1 ≤
        ([none] : List (Option Bytes)).length + 1 ∧
      (writeMemoryRun true ([none] ++ some [0, 0, 0, 0, 0, 1] :: [])).2.2 = false) ∧
    ((lockMemoryRun true ([none] ++ some [0, 0, 0, 0, 0, 1] :: [])).2.1 ≤
        ([none] : List (Option Bytes)).length + 1 ∧
      (lockMemoryRun true ([none] ++ some [0, 0, 0, 0, 0, 1] :: [])).2.2 = false) ∧
    ((killTagRun true ([none] ++ some [0, 0, 0, 0, 0, 1] :: [])).2.1 ≤
        ([none] : List (Option Bytes)).length + 1 ∧
      (killTagRun true ([none] ++ some [0, 0, 0, 0, 0, 1] :: [])).2.2 = false) ∧
    ((inventoryRun false true
        ([.timeout] ++ .res (some [0xCF, 0, 0, 1, 1, 1, 0, 0]) :: [])).2.1 ≤
        ([RecvOutcome.timeout] : List RecvOutcome).length + 1 ∧
      (inventoryRun false true
        ([.timeout] ++ .res (some [0xCF, 0, 0, 1, 1, 1, 0, 0]) :: [])).2.2 ≠
        RunEnd.blocked) :=
  ⟨c6_bounded_termination.1 [none] [] [0, 0, 0, 0, 0, 1] (by decide),
   c6_bounded_termination.2.1 [none] [] [0, 0, 0, 0, 0, 1] (by decide),
   c6_bounded_termination.2.2.1 [none] [] [0, 0, 0, 0, 0, 1] (by decide),
   c6_bounded_termination.2.2.2.1 [none] [] [0, 0, 0, 0, 0, 1] (by decide),
   c6_bounded_termination.2.2.2.2.1 false [.timeout] [] [0xCF, 0, 0, 1, 1, 1, 0, 0]
     (by decide) (by decide) (by decide) (by decide)⟩

/-- The `body_n_checksum_section` slice reads only the first
`5 + LENGTH + 2` bytes of the buffer. -/
theorem bodyChecksum_append (raw f2 : Bytes) (h : 7 + raw.getD 4 0 ≤ raw.length) :
    bodyChecksum (raw ++ f2) = bodyChecksum raw := by
  have hg : (raw ++ f2).getD 4 0 = raw.getD 4 0 :=
    List.getD_append _ _ _ _ (by omega)
  rw [bodyChecksum, bodyChecksum, hg,
    List.drop_append_of_le_length (by omega),
    List.take_append_of_le_length (by rw [List.length_drop]; omega)]

/-- The status byte is read from the first frame only. -/
theorem invStatus_append (raw f2 : Bytes) (h : 7 + raw.getD 4 0 ≤ raw.length) :
    invStatus (raw ++ f2) = invStatus raw := by
  rw [invStatus, invStatus, bodyChecksum_append raw f2 h]

/-- The body section is read from the first frame only. -/
theorem bodySection_append (raw f2 : Bytes) (h : 7 + raw.getD 4 0 ≤ raw.length) :
    bodySection (raw ++ f2) = bodySection raw := by
  rw [bodySection, bodySection, bodyChecksum_append raw f2 h]

/-- The opcode is read from the first frame only. -/
theorem rawOpcode_append (raw f2 : Bytes) (h : 4 ≤ raw.length) :
    rawOpcode (raw ++ f2) = rawOpcode raw := by
  rw [rawOpcode, rawOpcode,
    List.drop_append_of_le_length (by omega),
    List.take_append_of_le_length (by rw [List.length_drop]; omega)]

/-- A complete well-formed SUCCESS inventory frame at the head of a USB bulk
packet is emitted (non-terminating) by `start_inventory`'s frame processing,
whatever bytes follow it in the packet. -/
theorem processFrame_success_head (raw f2 : Bytes)
    (h1 : raw.headD 0 = HEADER)
    (h2 : raw.length = 7 + raw.getD 4 0)
    (h3 : rawOpcode raw = INVENTORY_ISO_CONTINUE)
    (h4 : responseStatus raw = SUCCESS)
    (h5 : 5 ≤ (bodySection raw).length)
    (h6 : (bodySection raw).getD 4 0 ≤ (bodySection raw).length) :
    processFrame true (raw ++ f2) = .emit (frameSlice raw) false := by
  have hlen : 7 + raw.getD 4 0 ≤ raw.length := by omega
  have hne : raw ≠ [] := by
    intro hx
    rw [hx] at h2
    simp at h2
  have hgd : (raw ++ f2).getD 4 0 = raw.getD 4 0 :=
    List.getD_append _ _ _ _ (by omega)
  have hbca : bodyChecksum (raw ++ f2) = bodyChecksum raw := bodyChecksum_append raw f2 hlen
  have hbc : (bodyChecksum raw).length = raw.getD 4 0 + 2 := by
    simp only [bodyChecksum, List.length_take, List.length_drop, h2]
    omega
  have hsa : invStatus (raw ++ f2) = invStatus raw := invStatus_append raw f2 hlen
  have hstat : invStatus raw = SUCCESS := by
    rw [invStatus, bodyChecksum, headD_take_pos _ _ _ (by omega), headD_drop_eq_getD]
    exact h4
  have hbs : bodySection (raw ++ f2) = bodySection raw := bodySection_append raw f2 hlen
  have hha : (raw ++ f2).headD 0 = raw.headD 0 := headD_append_left raw f2 0 hne
  have hoa : rawOpcode (raw ++ f2) = rawOpcode raw := rawOpcode_append raw f2 (by omega)
  unfold processFrame
  rw [if_neg (by rw [hha, h1]; exact fun hx => hx rfl),
    if_neg (by rw [List.length_append]; omega),
    if_neg (by rw [hoa, h3]; decide),
    if_neg (by rw [hoa, h3]; decide),
    if_neg (by rw [hbca, hbc]; omega),
    if_neg (by rw [hsa, hstat]; decide),
    if_neg (by rw [hbca, hbc, hgd]; omega),
    if_neg (by rintro ⟨-, -, hq⟩; rw [hbs] at hq; omega),
    if_neg (by
      rintro ⟨-, -, hq⟩
      rw [hbs] at hq
      exact hq (Nat.min_eq_right h6)),
    List.take_append_of_le_length (by omega), hbca, hsa, hstat]
  simp [frameSlice, SUCCESS, NO_COUNT_LABEL]

/-- C7: during USB inventory streaming, a bulk packet holding one complete
frame followed by any further bytes (in particular a second complete frame)
yields only the first frame; the loop then continues from a fresh receive,
so the trailing bytes are discarded and never produce a second yielded
response — the run's outcome does not depend on them at all. -/
theorem c7_usb_first_frame_only (raw f2 : Bytes) (rest : List RecvOutcome)
    (h1 : raw.headD 0 = HEADER)
    (h2 : raw.length = 7 + raw.getD 4 0)
    (h3 : rawOpcode raw = INVENTORY_ISO_CONTINUE)
    (h4 : responseStatus raw = SUCCESS)
    (h5 : 5 ≤ (bodySection raw).length)
    (h6 : (bodySection raw).getD 4 0 ≤ (bodySection raw).length) :
    inventoryRun true true (.res (some (raw ++ f2)) :: rest) =
      (some (frameSlice raw) :: (inventoryGo true rest).1,
        (inventoryGo true rest).2.1 + 1, (inventoryGo true rest).2.2) := by
  have hne : ¬ (raw ++ f2).length = 0 := by
    rw [List.length_append]
    omega
  show inventoryGo true (.res (some (raw ++ f2)) :: rest) = _
  rw [inventoryGo_some_step true (raw ++ f2) rest hne,
    processFrame_success_head raw f2 h1 h2 h3 h4 h5 h6]

/-- Witness for C7: a 64-byte-style bulk packet made of a complete SUCCESS
frame immediately followed by a complete terminator frame yields only the
first frame; the terminator of the next packet then ends the stream. -/
theorem c7_witness :
    inventoryRun true true
      [.res (some ([0xCF, 0, 0, 1, 7, 0, 1, 2, 3, 4, 5, 6, 0, 0] ++
        [0xCF, 0, 0, 1, 1, 1, 0, 0])),
       .res (some [0xCF, 0, 0, 1, 1, 1, 0, 0])] =
      (some (frameSlice [0xCF, 0, 0, 1, 7, 0, 1, 2, 3, 4, 5, 6, 0, 0]) ::
          (inventoryGo true [.res (some [0xCF, 0, 0, 1, 1, 1, 0, 0])]).1,
        (inventoryGo true [.res (some [0xCF, 0, 0, 1, 1, 1, 0, 0])]).2.1 + 1,
        (inventoryGo true [.res (some [0xCF, 0, 0, 1, 1, 1, 0, 0])]).2.2) :=
  c7_usb_first_frame_only [0xCF, 0, 0, 1, 7, 0, 1, 2, 3, 4, 5, 6, 0, 0]
    [0xCF, 0, 0, 1, 1, 1, 0, 0] [.res (some [0xCF, 0, 0, 1, 1, 1, 0, 0])]
    (by decide) (by decide) (by decide) (by decide) (by decide) (by decide)

/-- C5 (counterexample to the claim as stated): `stop_inventory(ANSWER_MODE)`
called when `is_inventory` is already `false` writes NO `INVENTORY_STOP`
command — it only attempts the one receive — although the claim says
ANSWER_MODE additionally writes the command. -/
theorem c5_no_write_when_not_busy :
    stopInventory WorkMode.answerMode false RecvOutcome.timeout =
      (false, [TAction.tryRecv]) ∧
    TAction.write INVENTORY_STOP [] ∉
      (stopInventory WorkMode.answerMode false RecvOutcome.timeout).2 := by
  exact ⟨rfl, by decide⟩

/-- C5 (amended): `stop_inventory(work_mode)` always returns with
`is_inventory = false` and its result tolerates any receive outcome; in
ANSWER_MODE it writes `INVENTORY_STOP` (without any buffer flush) only when
`is_inventory` was set, and then attempts exactly one receive; in every other
work mode it performs no transport action at all. -/
theorem c5_stop_inventory (mode : WorkMode) (inv : Bool) (o : RecvOutcome) :
    (stopInventory mode inv o).1 = false ∧
    stopInventory mode inv o = stopInventory mode inv RecvOutcome.timeout ∧
    (stopInventory mode inv o).2 =
      (if mode = WorkMode.answerMode then
        (if inv then [TAction.write INVENTORY_STOP [], TAction.tryRecv]
         else [TAction.tryRecv])
       else []) ∧
    TAction.clearBuffer ∉ (stopInventory mode inv o).2 := by
  have h3 : (stopInventory mode inv o).2 =
      (if mode = WorkMode.answerMode then
        (if inv then [TAction.write INVENTORY_STOP [], TAction.tryRecv]
         else [TAction.tryRecv])
       else []) := by
    cases mode <;> cases inv <;> rfl
  refine ⟨by cases mode <;> rfl, rfl, h3, ?_⟩
  rw [h3]
  cases mode <;> cases inv <;> decide

/-- C8: `set_power(p)` with `p` outside `[0, 33]` fails the argument check
before any transport action — no buffer flush, no write, no receive — while
`p` inside `[0, 33]` flushes, writes the `SET_POWER` command carrying the
power byte, and receives. -/
theorem c8_set_power (p : Int) :
    (¬ (0 ≤ p ∧ p ≤ 33) → setPower p = .error .invalidArgument) ∧
    ((0 ≤ p ∧ p ≤ 33) → setPower p =
      .ok [TAction.clearBuffer, TAction.write SET_POWER [p.toNat, 0],
        TAction.tryRecv]) := by
  constructor
  · intro h
    rw [setPower, if_neg h]
  · intro h
    rw [setPower, if_pos h]

/-- Witness for C8: `set_power(34)` is rejected with no transport action;
`set_power(20)` sends the command. -/
theorem c8_witness :
    setPower 34 = .error .invalidArgument ∧
    setPower 20 = .ok [TAction.clearBuffer,
      TAction.write SET_POWER [Int.toNat 20, 0], TAction.tryRecv] :=
  ⟨(c8_set_power 34).1 (by decide), (c8_set_power 20).2 (by decide)⟩

/-- C9 (counterexample to the claim as stated): a 32-byte mask has bit count
`256`, which does not fit the one-byte length field: `bytearray.extend`
raises `ValueError` and nothing is encoded or sent, so the claim's "for every
mask" fails at this boundary. -/
theorem c9_mask_32_bytes_rejected :
    selectMask (List.replicate 32 0) 0 = .error .byteRange := rfl

/-- C9 (amended): for every mask of at most 31 bytes (so that the bit count
fits one byte), `select_mask` encodes the payload length field as the bit
count `8 * len(mask)` of the original, unpadded mask, and appends exactly one
zero byte to the mask when its length is odd. -/
theorem c9_select_mask (mask : Bytes) (sa : Nat)
    (hm : mask.length ≤ 31) (hsa : sa * 8 < 65536) :
    selectMask mask sa =
      .ok ([sa * 8 / 256 % 256, sa * 8 % 256] ++ [mask.length * 8] ++
        (if mask.length % 2 ≠ 0 then mask ++ [0] else mask)) := by
  have h256 : mask.length * 8 < 256 := by omega
  rw [selectMask, toBytes2BE, if_pos hsa]
  show (if mask.length * 8 < 256 then
      Except.ok (([sa * 8 / 256 % 256, sa * 8 % 256] : Bytes) ++ [mask.length * 8] ++
        (if mask.length % 2 ≠ 0 then mask ++ [0] else mask))
    else Except.error EngineError.byteRange) =
    Except.ok ([sa * 8 / 256 % 256, sa * 8 % 256] ++ [mask.length * 8] ++
      (if mask.length % 2 ≠ 0 then mask ++ [0] else mask))
  rw [if_pos h256]

/-- Witness for C9: a 3-byte mask at start address 0 gives length field 24
and one zero pad byte. -/
theorem c9_witness :
    ([0xAA, 0xBB, 0xCC] : Bytes).length ≤ 31 ∧
    selectMask [0xAA, 0xBB, 0xCC] 0 = .ok [0, 0, 24, 0xAA, 0xBB, 0xCC, 0] :=
  ⟨by decide, by
    rw [c9_select_mask [0xAA, 0xBB, 0xCC] 0 (by decide) (by decide)]
    rfl⟩

/-- C10: `start_inventory(ANSWER_MODE, None)` raises `ValueError` after
setting the busy flag: the flag is left `true`, no command is written, and
no buffer is flushed. -/
theorem c10_answer_mode_no_parameter :
    startInventoryEntry WorkMode.answerMode none =
      (some EngineError.valueError, true, []) := rfl

end RFID
